import Mathlib

/-!
Shallow embedding of the voice session core implemented in
`src/discord/voice_client.py` (class `VoiceClient`), together with theorems
settling the specification's claims about it.

Modelling conventions: byte strings are `List Nat` (each byte `< 256`),
Python `dict`s are lookup functions `Nat → Option Nat`, Python strings are
`List Char`, and an operation that can raise an exception returns `Option`
(`none` models the raise).  The AEAD primitive (`nacl.secret.SecretBox`) is
an external library, modelled at its interface by the `SecretBox` structure
below.
-/

namespace Voice

/-- Embeds `VoiceClient._checked_add(attr, value, limit)`
(voice_client.py lines 709-714): the attribute is reset to `0` when
`val + value` would exceed `limit`, and becomes `val + value` otherwise. -/
def checked_add (val value limit : Nat) : Nat :=
  if val + value > limit then 0 else val + value

/-- `n`-fold iteration of `checked_add · step limit` from `c`: the value of a
counter maintained by `_checked_add` after `n` increments from `c`. -/
def counterIter (step limit : Nat) : Nat → Nat → Nat
  | 0, c => c
  | n + 1, c => checked_add (counterIter step limit n c) step limit

theorem counterIter_succ_comm (step limit n c : Nat) :
    counterIter step limit (n + 1) c =
      counterIter step limit n (checked_add c step limit) := by
  induction n with
  | zero => rfl
  | succ n ih =>
    show checked_add (counterIter step limit (n + 1) c) step limit = _
    rw [ih]
    rfl

/-- Closed form for the `sequence` counter: step 1, limit 65535
(`send_audio_packet`, line 858).  The reset fires exactly when the value
would reach 65536, so the counter is plain arithmetic modulo 2^16. -/
theorem counterIter_seq (n : Nat) : counterIter 1 65535 n 0 = n % 65536 := by
  induction n with
  | zero => rfl
  | succ n ih =>
    show checked_add (counterIter 1 65535 n 0) 1 65535 = (n + 1) % 65536
    rw [ih, checked_add]
    split <;> omega

/-- Closed form for the `timestamp` counter: step 960, limit 4294967295
(`send_audio_packet`, line 866).  Because 960 does not divide 2^32, the
reset fires at 4473925 frames (4473925 * 960 = 4294968000 > 2^32 - 1), one
frame short of a full 2^32 sample span. -/
theorem counterIter_ts (n : Nat) :
    counterIter 960 4294967295 n 0 = n % 4473925 * 960 := by
  induction n with
  | zero => rfl
  | succ n ih =>
    show checked_add (counterIter 960 4294967295 n 0) 960 4294967295 =
      (n + 1) % 4473925 * 960
    rw [ih, checked_add]
    split <;> omega

/-- Closed form for the `_lite_nonce` counter: step 1, limit 4294967295
(`_encrypt_xsalsa20_poly1305_lite`, line 768), started at any `c < 2^32`:
plain arithmetic modulo 2^32. -/
theorem counterIter_lite (c : Nat) (hc : c < 4294967296) (n : Nat) :
    counterIter 1 4294967295 n c = (c + n) % 4294967296 := by
  induction n with
  | zero =>
    show c = (c + 0) % 4294967296
    omega
  | succ n ih =>
    show checked_add (counterIter 1 4294967295 n c) 1 4294967295 =
      (c + (n + 1)) % 4294967296
    rw [ih, checked_add]
    split <;> omega

/-- Modelled from the spec: the AEAD seal/open primitive used by every
encryption mode — `nacl.secret.SecretBox` under the connection's fixed
`secret_key` (§4.5, §6).  PyNaCl is an external library, not part of this
repository, so it is captured at its interface: a seal function of nonce and
message, an open function that can fail (`CryptoError` becomes `none`), and
the library's contract that opening a sealed message under the same nonce
returns the message. -/
structure SecretBox where
  encrypt : List Nat → List Nat → List Nat
  decrypt : List Nat → List Nat → Option (List Nat)
  decrypt_encrypt : ∀ nonce msg, decrypt nonce (encrypt nonce msg) = some msg

/-- Big-endian 16-bit packing: `struct.pack('>H', n)`. -/
def pack16 (n : Nat) : List Nat := [n / 256 % 256, n % 256]

/-- Big-endian 32-bit packing: `struct.pack('>I', n)`. -/
def pack32 (n : Nat) : List Nat :=
  [n / 16777216 % 256, n / 65536 % 256, n / 256 % 256, n % 256]

/-- The 12-byte RTP header formulated by `_get_voice_packet`
(lines 725-732): version/flags byte `0x80`, payload type `0x78`, big-endian
sequence at offset 2, timestamp at offset 4, ssrc at offset 8. -/
def rtp_header (seq ts ssrc : Nat) : List Nat :=
  0x80 :: 0x78 :: (pack16 seq ++ pack32 ts ++ pack32 ssrc)

/-- Embeds the static method `_strip_header(data)` (lines 716-722).  Python
evaluates `data[0] == 0xbe and data[1] == 0xde and len(data) > 4` left to
right, so an empty input raises `IndexError` at `data[0]` (modelled `none`),
and a one-byte input starting `0xbe` raises at `data[1]`.  When the guard
holds, the second 16-bit field of `struct.unpack_from('>HH', data)` is
`data[2] * 256 + data[3]` and `4 + length * 4` leading bytes are dropped. -/
def strip_header : List Nat → Option (List Nat)
  | [] => none
  | [b0] => if b0 = 0xbe then none else some [b0]
  | b0 :: b1 :: rest =>
    if b0 = 0xbe ∧ b1 = 0xde ∧ 4 < (b0 :: b1 :: rest).length then
      some ((b0 :: b1 :: rest).drop (4 + (rest.getD 0 0 * 256 + rest.getD 1 0) * 4))
    else
      some (b0 :: b1 :: rest)

/-- Embeds `_encrypt_xsalsa20_poly1305` (lines 737-742): the 24-byte nonce is
the 12-byte RTP header padded with zeros; wire layout `header ‖ ciphertext`. -/
def encrypt_xsalsa20_poly1305 (box : SecretBox) (header data : List Nat) :
    List Nat :=
  header ++ box.encrypt (header ++ List.replicate 12 0) data

/-- Embeds `_decrypt_xsalsa20_poly1305` (lines 744-749): rebuild the nonce
from the packet header, open, then strip any extension header. -/
def decrypt_xsalsa20_poly1305 (box : SecretBox) (header data : List Nat) :
    Option (List Nat) :=
  (box.decrypt (header ++ List.replicate 12 0) data).bind strip_header

/-- Embeds `_encrypt_xsalsa20_poly1305_suffix` (lines 751-755).  The random
24-byte nonce drawn from `nacl.utils.random` is passed in as `nonce`; wire
layout `header ‖ ciphertext ‖ nonce`. -/
def encrypt_xsalsa20_poly1305_suffix (box : SecretBox)
    (nonce header data : List Nat) : List Nat :=
  header ++ box.encrypt nonce data ++ nonce

/-- Embeds `_decrypt_xsalsa20_poly1305_suffix` (lines 757-762): the last 24
bytes (`data[-24:]`) are the nonce, the rest (`data[:-24]`) the ciphertext. -/
def decrypt_xsalsa20_poly1305_suffix (box : SecretBox) (header data : List Nat) :
    Option (List Nat) :=
  (box.decrypt (data.drop (data.length - 24))
      (data.take (data.length - 24))).bind strip_header

/-- Embeds `_encrypt_xsalsa20_poly1305_lite` (lines 764-770): the nonce is
the big-endian 4-byte `_lite_nonce` counter padded with zeros, the counter is
then advanced by `_checked_add('_lite_nonce', 1, 4294967295)`, and the 4
counter bytes are appended after the ciphertext.  Returns the wire packet and
the updated `_lite_nonce`. -/
def encrypt_xsalsa20_poly1305_lite (box : SecretBox) (lite_nonce : Nat)
    (header data : List Nat) : List Nat × Nat :=
  (header ++ box.encrypt (pack32 lite_nonce ++ List.replicate 20 0) data ++
      pack32 lite_nonce,
   checked_add lite_nonce 1 4294967295)

/-- Embeds `_decrypt_xsalsa20_poly1305_lite` (lines 772-778): the last 4
bytes (`data[-4:]`) are the counter, zero-padded into the nonce; the rest
(`data[:-4]`) is the ciphertext. -/
def decrypt_xsalsa20_poly1305_lite (box : SecretBox) (header data : List Nat) :
    Option (List Nat) :=
  (box.decrypt (data.drop (data.length - 4) ++ List.replicate 20 0)
      (data.take (data.length - 4))).bind strip_header

/-- The negotiated encryption mode, one of `supported_modes`
(lines 397-401). -/
inductive Mode
  | plain
  | suffix
  | lite
deriving DecidableEq

/-- The mutable counters of a `VoiceClient` touched by the outbound audio
path: `sequence`, `timestamp` (initialised to 0, lines 386-387) and
`_lite_nonce` (initialised to 0, line 391). -/
structure VCState where
  sequence : Nat
  timestamp : Nat
  lite_nonce : Nat
deriving DecidableEq

/-- Embeds `_get_voice_packet(data)` (lines 724-735): formulate the RTP
header from the current counters and dispatch on `'_encrypt_' + self.mode`.
`rand` models the fresh random nonce drawn inside the suffix mode; only the
lite mode updates state (its nonce counter).  Returns the wire packet and
the updated state. -/
def get_voice_packet (box : SecretBox) (mode : Mode) (rand : List Nat)
    (ssrc : Nat) (st : VCState) (data : List Nat) : List Nat × VCState :=
  match mode with
  | .plain =>
    (encrypt_xsalsa20_poly1305 box (rtp_header st.sequence st.timestamp ssrc)
      data, st)
  | .suffix =>
    (encrypt_xsalsa20_poly1305_suffix box rand
      (rtp_header st.sequence st.timestamp ssrc) data, st)
  | .lite =>
    let r := encrypt_xsalsa20_poly1305_lite box st.lite_nonce
      (rtp_header st.sequence st.timestamp ssrc) data
    (r.1, { st with lite_nonce := r.2 })

/-- Modelled from the spec: `parseInboundPacket` (§4.4) — the inbound
pipeline splits the 12-byte header from the remainder and applies the active
mode's open operation (the `_decrypt_*` methods above, which themselves end
with extension-header stripping).  The receive driver that performs the
split is a collaborator not under `src/`. -/
def parse_inbound_packet (box : SecretBox) (mode : Mode) (packet : List Nat) :
    Option (List Nat) :=
  match mode with
  | .plain => decrypt_xsalsa20_poly1305 box (packet.take 12) (packet.drop 12)
  | .suffix =>
    decrypt_xsalsa20_poly1305_suffix box (packet.take 12) (packet.drop 12)
  | .lite => decrypt_xsalsa20_poly1305_lite box (packet.take 12) (packet.drop 12)

/-- Modelled from the spec: `opus.Encoder.SAMPLES_PER_FRAME`, the audio frame
size in samples stepped onto the RTP timestamp per packet (§3
`PacketCounters`, §4.4).  The repository's `opus` module is not under
`src/`; a 48 kHz Opus stream with the standard 20 ms frame carries
48000 / 1000 * 20 = 960 samples per frame. -/
def SAMPLES_PER_FRAME : Nat := 960

/-- Outcome of one `send_audio_packet` call: the new counter state, the wire
packet that was built, whether it was handed to the socket, and whether the
packet-dropped warning was logged. -/
structure SendResult where
  state : VCState
  packet : List Nat
  sent : Bool
  warned : Bool
deriving DecidableEq

/-- Embeds `send_audio_packet(data)` (lines 842-866): advance `sequence` by
`_checked_add('sequence', 1, 65535)`, build the packet via
`_get_voice_packet`, attempt the non-blocking socket send — `blocked = true`
models the socket raising `BlockingIOError`, which is caught and logged —
and finally advance `timestamp` by
`_checked_add('timestamp', opus.Encoder.SAMPLES_PER_FRAME, 4294967295)`.
That the embedding is a total function returning a `SendResult` models the
Python call returning normally (a `BlockingIOError` never escapes it). -/
def send_audio_packet (box : SecretBox) (mode : Mode) (rand : List Nat)
    (ssrc : Nat) (st : VCState) (data : List Nat) (blocked : Bool) :
    SendResult :=
  let st1 := { st with sequence := checked_add st.sequence 1 65535 }
  let pr := get_voice_packet box mode rand ssrc st1 data
  let st3 := { pr.2 with
    timestamp := checked_add pr.2.timestamp SAMPLES_PER_FRAME 4294967295 }
  { state := st3, packet := pr.1, sent := !blocked, warned := blocked }

/-- The per-call inputs of one `send_audio_packet` call: the opus payload,
the random nonce material a suffix-mode seal would draw, and whether the
socket is momentarily unwritable during this call. -/
structure SendInput where
  data : List Nat
  rand : List Nat
  blocked : Bool

/-- Runs `send_audio_packet` once per element of `inputs`, threading the
counter state. -/
def run_sends (box : SecretBox) (mode : Mode) (ssrc : Nat) :
    List SendInput → VCState → VCState
  | [], st => st
  | i :: is, st =>
    run_sends box mode ssrc is
      (send_audio_packet box mode i.rand ssrc st i.data i.blocked).state

/-- Nonce-dependent keystream of the reference `SecretBox` instantiation
used to evaluate the theorems on concrete inputs. -/
def xorKeystream (nonce : List Nat) (len : Nat) : List Nat :=
  (List.range len).map (fun i => (nonce.foldl (· + ·) 0 + i) % 256)

/-- Seal operation of the reference instantiation: a 16-byte tag followed by
the message XOR-ed with the keystream (mirroring the ciphertext shape of the
external secretbox: 16 MAC bytes plus the stream-ciphered message). -/
def xorEncrypt (nonce msg : List Nat) : List Nat :=
  List.replicate 16 (nonce.foldl (· + ·) 0 % 256) ++
    List.zipWith (· ^^^ ·) msg (xorKeystream nonce msg.length)

/-- Open operation of the reference instantiation. -/
def xorDecrypt (nonce c : List Nat) : Option (List Nat) :=
  if c.length < 16 then none
  else some (List.zipWith (· ^^^ ·) (c.drop 16) (xorKeystream nonce (c.length - 16)))

theorem xorKeystream_length (nonce : List Nat) (len : Nat) :
    (xorKeystream nonce len).length = len := by
  simp [xorKeystream]

theorem zipWith_xor_cancel : ∀ m ks : List Nat, m.length ≤ ks.length →
    List.zipWith (· ^^^ ·) (List.zipWith (· ^^^ ·) m ks) ks = m
  | [], _, _ => by simp
  | _ :: _, [], h => by simp at h
  | a :: m, b :: ks, h => by
    have ih := zipWith_xor_cancel m ks (by simpa using h)
    simp [List.zipWith, ih, Nat.xor_assoc]

/-- The reference `SecretBox` instance. -/
def xorBox : SecretBox where
  encrypt := xorEncrypt
  decrypt := xorDecrypt
  decrypt_encrypt := by
    intro nonce msg
    have hz : (List.zipWith (· ^^^ ·) msg (xorKeystream nonce msg.length)).length
        = msg.length := by
      simp [xorKeystream_length]
    have hlen : (xorEncrypt nonce msg).length = 16 + msg.length := by
      simp [xorEncrypt, hz]
      omega
    rw [xorDecrypt]
    rw [if_neg (by omega)]
    have hdrop : (xorEncrypt nonce msg).drop 16
        = List.zipWith (· ^^^ ·) msg (xorKeystream nonce msg.length) := by
      have h16 : (List.replicate 16 (nonce.foldl (· + ·) 0 % 256)).length = 16 := by
        simp
      rw [xorEncrypt, List.drop_left' h16]
    rw [hdrop, hlen]
    have : 16 + msg.length - 16 = msg.length := by omega
    rw [this, zipWith_xor_cancel msg _ (by rw [xorKeystream_length])]

/-- A Python `dict` keyed and valued by integers, as a lookup function. -/
def Dict : Type := Nat → Option Nat

/-- The empty dict (`idrcs = {}` and `ssids = {}`, lines 393-394). -/
def dempty : Dict := fun _ => none

/-- Python dict item assignment `d[k] = v`. -/
def dinsert (d : Dict) (k v : Nat) : Dict :=
  fun x => if x = k then some v else d x

/-- The two ssrc maps of a `VoiceClient`: `idrcs` (identity → ssrc) and
`ssids` (ssrc → identity). -/
structure SsrcState where
  idrcs : Dict
  ssids : Dict

/-- Embeds `_set_ssrc(user_id, ssrc)` (lines 705-707); the `ssrc` property
setter (lines 408-411) performs the same two writes with
`user_id = self.user.id`. -/
def set_ssrc (st : SsrcState) (user_id ssrc : Nat) : SsrcState :=
  { idrcs := dinsert st.idrcs user_id ssrc
    ssids := dinsert st.ssids ssrc user_id }

/-- Embeds `_flip_ssrc(query)` (lines 699-703): look in the forward map
first, fall back to the reverse map. -/
def flip_ssrc (st : SsrcState) (query : Nat) : Option Nat :=
  match st.idrcs query with
  | some v => some v
  | none => st.ssids query

/-- Applies a sequence of `(user_id, ssrc)` writes through `_set_ssrc`. -/
def apply_ssrc_ops : List (Nat × Nat) → SsrcState → SsrcState
  | [], st => st
  | p :: ps, st => apply_ssrc_ops ps (set_ssrc st p.1 p.2)

/-- The fields of a `VoiceClient` read or written by
`on_voice_state_update` (lines 425-443). -/
structure StateUpdateState where
  session_id : List Char
  channel : Option Nat
  handshaking : Bool
  potentially_reconnecting : Bool
  voice_state_complete : Bool

/-- Embeds `on_voice_state_update(data)` (lines 425-443).  `session_id` is
always overwritten from the payload.  If the client is not handshaking or is
potentially reconnecting: a null `channel_id` triggers `self.disconnect()`
(the returned flag), otherwise `self.channel` is replaced by the resolved
channel (`get_channel` models `guild.get_channel` /
`_get_private_channel`, which may return `None`).  Otherwise the
`_voice_state_complete` condition is set and `channel` is untouched. -/
def on_voice_state_update (st : StateUpdateState) (data_session : List Char)
    (data_channel : Option Nat) (get_channel : Nat → Option Nat) :
    StateUpdateState × Bool :=
  let st1 := { st with session_id := data_session }
  if st1.handshaking = false ∨ st1.potentially_reconnecting = true then
    match data_channel with
    | none => (st1, true)
    | some cid => ({ st1 with channel := get_channel cid }, false)
  else
    ({ st1 with voice_state_complete := true }, false)

/-- The first component of Python `endpoint.rpartition(':')`: everything
before the last colon, or the empty string when there is no colon. -/
def before_last_colon (s : List Char) : List Char :=
  match s.reverse.dropWhile (fun c => c ≠ ':') with
  | [] => []
  | _ :: rest => rest.reverse

/-- `endpoint[6:]` applied when `endpoint.startswith('wss://')`
(lines 462-463). -/
def strip_wss (s : List Char) : List Char :=
  if s.take 6 = [Char.ofNat 119, Char.ofNat 115, Char.ofNat 115,
      Char.ofNat 58, Char.ofNat 47, Char.ofNat 47] then s.drop 6 else s

/-- The `VOICE_SERVER_UPDATE` payload as consumed by
`on_voice_server_update`: `data.get('token')`, the `guild_id` /
`channel_id` snowflakes and `data.get('endpoint')`, each possibly absent. -/
structure ServerUpdatePayload where
  token : Option (List Char)
  guild_id : Option Nat
  channel_id : Option Nat
  endpoint : Option (List Char)

/-- The fields of a `VoiceClient` read or written by
`on_voice_server_update` (lines 445-475), plus the two observable effects of
a call: opening a fresh non-blocking UDP socket and closing the voice
websocket with code 4000. -/
structure ServerUpdateState where
  token : Option (List Char)
  server_id : Option Nat
  endpoint : Option (List Char)
  endpoint_ip : Option (List Char)
  socket_fresh : Bool
  handshaking : Bool
  voice_server_complete : Bool
  ws_closed_4000 : Bool

/-- Embeds `on_voice_server_update(data)` (lines 445-475).  If the
server-completion condition is already set, the update is ignored.
Otherwise `self.token` is assigned `data.get('token')` and `self.server_id`
the `guild_id` (falling back to `channel_id`) *before* any validation; only
then, if `endpoint` or `token` is `None`, the method logs and returns.  On a
well-formed payload the endpoint host is stripped of its port and any
`wss://` scheme, a fresh non-blocking socket is opened, and either the
websocket is force-closed with 4000 (when not handshaking) or the
server-completion condition is set. -/
def on_voice_server_update (st : ServerUpdateState)
    (data : ServerUpdatePayload) : ServerUpdateState :=
  if st.voice_server_complete = true then st
  else
    let st1 := { st with
      token := data.token
      server_id := match data.guild_id with
        | some g => some g
        | none => data.channel_id }
    match data.endpoint, data.token with
    | some ep, some _ =>
      let st2 := { st1 with
        endpoint := some (strip_wss (before_last_colon ep))
        endpoint_ip := none
        socket_fresh := true }
      if st2.handshaking = false then { st2 with ws_closed_4000 := true }
      else { st2 with voice_server_complete := true }
    | _, _ => st1

/-- A single outcome of `await self.ws.poll_event()` inside `poll_voice_ws`:
either a `ConnectionClosed` carrying a close code, or an
`asyncio.TimeoutError`. -/
inductive PollEvent
  | connection_closed (code : Nat)
  | timeout_err
deriving DecidableEq

/-- What one iteration of the `poll_voice_ws` loop did in response to a
raised event: whether `potential_resume` / `potential_reconnect` were
attempted, whether `self.disconnect()` ran, whether the exception was
re-raised to the caller, and whether the loop terminated. -/
structure PollStep where
  attempted_resume : Bool
  attempted_reconnect : Bool
  disconnected : Bool
  raised : Bool
  exits : Bool
deriving DecidableEq

/-- Embeds the error-classification body of `poll_voice_ws(reconnect)`
(lines 608-651).  `resume_ok` / `reconnect_ok` model the results of
`potential_resume()` / `potential_reconnect()`.  Close code 1000:
disconnect and break.  4015: try a resume, disconnecting and breaking when
it fails.  4014: try a reconnect, disconnecting and breaking when it fails.
Any other close code — and a timeout — falls through: disconnect and
re-raise when `reconnect` is false, otherwise back off and re-enter
`connect`, continuing the loop. -/
def poll_step (e : PollEvent) (reconnect resume_ok reconnect_ok : Bool) :
    PollStep :=
  match e with
  | .connection_closed 1000 =>
    { attempted_resume := false, attempted_reconnect := false,
      disconnected := true, raised := false, exits := true }
  | .connection_closed 4015 =>
    if resume_ok then
      { attempted_resume := true, attempted_reconnect := false,
        disconnected := false, raised := false, exits := false }
    else
      { attempted_resume := true, attempted_reconnect := false,
        disconnected := true, raised := false, exits := true }
  | .connection_closed 4014 =>
    if reconnect_ok then
      { attempted_resume := false, attempted_reconnect := true,
        disconnected := false, raised := false, exits := false }
    else
      { attempted_resume := false, attempted_reconnect := true,
        disconnected := true, raised := false, exits := true }
  | _ =>
    if reconnect then
      { attempted_resume := false, attempted_reconnect := false,
        disconnected := false, raised := false, exits := false }
    else
      { attempted_resume := false, attempted_reconnect := false,
        disconnected := true, raised := true, exits := true }

/-- The big-endian 16-bit value at byte offsets 2-3 of a wire packet: the
RTP sequence field (`struct.unpack_from('>H', packet, 2)`). -/
def seq_field : List Nat → Nat
  | _ :: _ :: a :: b :: _ => a * 256 + b
  | _ => 0

/-- The big-endian 32-bit value at byte offsets 4-7 of a wire packet: the
RTP timestamp field (`struct.unpack_from('>I', packet, 4)`). -/
def ts_field : List Nat → Nat
  | _ :: _ :: _ :: _ :: a :: b :: c :: d :: _ =>
    ((a * 256 + b) * 256 + c) * 256 + d
  | _ => 0

theorem seq_field_header (s t r : Nat) (tail : List Nat) :
    seq_field (rtp_header s t r ++ tail) = s % 65536 := by
  show s / 256 % 256 * 256 + s % 256 = s % 65536
  omega

theorem ts_field_header (s t r : Nat) (tail : List Nat) :
    ts_field (rtp_header s t r ++ tail) = t % 4294967296 := by
  show ((t / 16777216 % 256 * 256 + t / 65536 % 256) * 256 + t / 256 % 256)
      * 256 + t % 256 = t % 4294967296
  omega

theorem rtp_header_length (s t r : Nat) : (rtp_header s t r).length = 12 := by
  simp [rtp_header, pack16, pack32]

theorem pack32_length (n : Nat) : (pack32 n).length = 4 := by
  simp [pack32]

/-- One `send_audio_packet` call advances `sequence` and `timestamp` by one
`_checked_add` each, in every mode and whether or not the socket blocked. -/
theorem send_audio_packet_counters (box : SecretBox) (mode : Mode)
    (rand : List Nat) (ssrc : Nat) (st : VCState) (data : List Nat)
    (blocked : Bool) :
    (send_audio_packet box mode rand ssrc st data blocked).state.sequence
      = checked_add st.sequence 1 65535 ∧
    (send_audio_packet box mode rand ssrc st data blocked).state.timestamp
      = checked_add st.timestamp SAMPLES_PER_FRAME 4294967295 := by
  cases mode <;> simp [send_audio_packet, get_voice_packet]

/-- Counter state after a run of `send_audio_packet` calls, as iterated
`_checked_add`s. -/
theorem run_sends_counters (box : SecretBox) (mode : Mode) (ssrc : Nat) :
    ∀ (inputs : List SendInput) (st : VCState),
    (run_sends box mode ssrc inputs st).sequence
      = counterIter 1 65535 inputs.length st.sequence ∧
    (run_sends box mode ssrc inputs st).timestamp
      = counterIter 960 4294967295 inputs.length st.timestamp
  | [], st => ⟨rfl, rfl⟩
  | i :: is, st => by
    have ih := run_sends_counters box mode ssrc is
      (send_audio_packet box mode i.rand ssrc st i.data i.blocked).state
    have hc := send_audio_packet_counters box mode i.rand ssrc st i.data
      i.blocked
    constructor
    · show (run_sends box mode ssrc is _).sequence = _
      rw [ih.1, hc.1, List.length_cons, counterIter_succ_comm]
    · show (run_sends box mode ssrc is _).timestamp = _
      rw [ih.2, hc.2, List.length_cons, counterIter_succ_comm]
      rfl

/-- C2 (as amended): starting from freshly initialised counters, after `N`
calls to `send_audio_packet` the `sequence` counter equals `N mod 65536`,
while the `timestamp` counter equals `(N mod 4473925) * SAMPLES_PER_FRAME` —
the rollover to zero happens at the first frame whose addition would exceed
2^32 - 1 (after 4473925 frames, since 960 does not divide 2^32), not at
`N * SAMPLES_PER_FRAME mod 2^32`.  Both counters are natural numbers that
stay inside their bit width and reset deterministically to zero. -/
theorem sequence_timestamp_after_sends (box : SecretBox) (mode : Mode)
    (ssrc : Nat) (inputs : List SendInput) :
    (run_sends box mode ssrc inputs ⟨0, 0, 0⟩).sequence
      = inputs.length % 65536 ∧
    (run_sends box mode ssrc inputs ⟨0, 0, 0⟩).timestamp
      = inputs.length % 4473925 * SAMPLES_PER_FRAME ∧
    (run_sends box mode ssrc inputs ⟨0, 0, 0⟩).sequence < 65536 ∧
    (run_sends box mode ssrc inputs ⟨0, 0, 0⟩).timestamp < 4294967296 := by
  have h := run_sends_counters box mode ssrc inputs ⟨0, 0, 0⟩
  rw [h.1, h.2] at *
  rw [counterIter_seq, counterIter_ts]
  refine ⟨rfl, rfl, by omega, ?_⟩
  show inputs.length % 4473925 * 960 < 4294967296
  omega

/-- C2 counterexample: after exactly 4473925 sends the timestamp counter has
been reset to 0, whereas `N * SAMPLES_PER_FRAME mod 2^32` is 704 — the code
wraps one frame before a full 2^32-sample span elapses. -/
theorem timestamp_not_mod_two_pow_32 :
    (run_sends xorBox Mode.plain 0
        (List.replicate 4473925 ⟨[], [], false⟩) ⟨0, 0, 0⟩).timestamp
      ≠ 4473925 * SAMPLES_PER_FRAME % 4294967296 := by
  have h := (run_sends_counters xorBox Mode.plain 0
    (List.replicate 4473925 ⟨[], [], false⟩) ⟨0, 0, 0⟩).2
  rw [h, List.length_replicate, counterIter_ts]
  decide

/-- The `_lite_nonce` counter consumed by the `k`-th (0-based) of a run of
consecutive `_encrypt_xsalsa20_poly1305_lite` calls whose counter starts at
`c`: each call feeds its updated counter (the second component of the seal)
into the next. -/
def lite_counter_after (box : SecretBox) (c : Nat) : Nat → Nat
  | 0 => c
  | k + 1 =>
    (encrypt_xsalsa20_poly1305_lite box (lite_counter_after box c k) [] []).2

theorem lite_counter_after_iter (box : SecretBox) (c : Nat) : ∀ k : Nat,
    lite_counter_after box c k = counterIter 1 4294967295 k c
  | 0 => rfl
  | k + 1 => by
    show checked_add (lite_counter_after box c k) 1 4294967295 = _
    rw [lite_counter_after_iter box c k]
    rfl

theorem lite_counter_after_eq (box : SecretBox) (c : Nat)
    (hc : c < 4294967296) (k : Nat) :
    lite_counter_after box c k = (c + k) % 4294967296 := by
  rw [lite_counter_after_iter box c k]
  exact counterIter_lite c hc k

/-- C5 (confirmed): in lite mode, across any run of at most 2^32 consecutive
seal calls starting from a counter below 2^32 (it is initialised to 0), the
4-byte nonce counters used are pairwise distinct; the counter steps by
exactly 1 per call and wraps exactly at 2^32 back to 0. -/
theorem lite_nonces_distinct (box : SecretBox) (c : Nat)
    (hc : c < 4294967296) (n : Nat) (hn : n ≤ 4294967296) :
    (∀ i j, i < j → j < n →
      lite_counter_after box c i ≠ lite_counter_after box c j) ∧
    (∀ k, lite_counter_after box c (k + 1)
      = if lite_counter_after box c k = 4294967295 then 0
        else lite_counter_after box c k + 1) := by
  constructor
  · intro i j hij hjn
    rw [lite_counter_after_eq box c hc i, lite_counter_after_eq box c hc j]
    omega
  · intro k
    rw [lite_counter_after_eq box c hc (k + 1), lite_counter_after_eq box c hc k]
    split <;> omega

/-- Witness for C5 at the freshly initialised counter. -/
theorem lite_nonces_distinct_witness :
    lite_counter_after xorBox 0 0 ≠ lite_counter_after xorBox 0 1 :=
  (lite_nonces_distinct xorBox 0 (by decide) 2 (by decide)).1 0 1
    (by decide) (by decide)

/-- C9 (confirmed): when the non-blocking socket send raises
`BlockingIOError`, `send_audio_packet` still returns normally with the
counter state it would have on a successful send — the packet is merely
dropped and the warning logged; the `sequence` and `timestamp` counters
advance exactly as on success. -/
theorem blocked_send_drops_and_advances (box : SecretBox) (mode : Mode)
    (rand : List Nat) (ssrc : Nat) (st : VCState) (data : List Nat) :
    (send_audio_packet box mode rand ssrc st data true).state
      = (send_audio_packet box mode rand ssrc st data false).state ∧
    (send_audio_packet box mode rand ssrc st data true).sent = false ∧
    (send_audio_packet box mode rand ssrc st data true).warned = true ∧
    (send_audio_packet box mode rand ssrc st data false).sent = true ∧
    (send_audio_packet box mode rand ssrc st data false).warned = false ∧
    (send_audio_packet box mode rand ssrc st data true).state.sequence
      = checked_add st.sequence 1 65535 ∧
    (send_audio_packet box mode rand ssrc st data true).state.timestamp
      = checked_add st.timestamp SAMPLES_PER_FRAME 4294967295 :=
  ⟨rfl, rfl, rfl, rfl, rfl,
   (send_audio_packet_counters box mode rand ssrc st data true).1,
   (send_audio_packet_counters box mode rand ssrc st data true).2⟩

/-- C10 (confirmed): the packet built by the `(is.length + 1)`-th
`send_audio_packet` call (counting from freshly initialised counters)
carries the post-increment sequence value `(is.length + 1) mod 65536` — so
the first packet carries sequence 1, not 0 — and the pre-increment timestamp
value, the timestamp accumulated by the previous `is.length` calls — so the
first packet carries timestamp 0: `sequence` is advanced before the header
is built, `timestamp` only after the send attempt. -/
theorem nth_packet_header_fields (box : SecretBox) (mode : Mode) (ssrc : Nat)
    (is : List SendInput) (i : SendInput) :
    seq_field (send_audio_packet box mode i.rand ssrc
        (run_sends box mode ssrc is ⟨0, 0, 0⟩) i.data i.blocked).packet
      = (is.length + 1) % 65536 ∧
    ts_field (send_audio_packet box mode i.rand ssrc
        (run_sends box mode ssrc is ⟨0, 0, 0⟩) i.data i.blocked).packet
      = is.length % 4473925 * SAMPLES_PER_FRAME := by
  have h := run_sends_counters box mode ssrc is ⟨0, 0, 0⟩
  rw [counterIter_seq] at h
  rw [counterIter_ts] at h
  set st := run_sends box mode ssrc is ⟨0, 0, 0⟩ with hst
  have hseq : checked_add st.sequence 1 65535 = (is.length + 1) % 65536 := by
    rw [h.1, ← counterIter_seq is.length, ← counterIter_seq (is.length + 1)]
    rfl
  have hpacket : (send_audio_packet box mode i.rand ssrc st i.data
      i.blocked).packet
      = rtp_header (checked_add st.sequence 1 65535) st.timestamp ssrc ++
        ((send_audio_packet box mode i.rand ssrc st i.data i.blocked).packet.drop
          12) := by
    cases mode <;>
      simp [send_audio_packet, get_voice_packet, encrypt_xsalsa20_poly1305,
        encrypt_xsalsa20_poly1305_suffix, encrypt_xsalsa20_poly1305_lite,
        List.append_assoc, List.drop_left' (rtp_header_length _ _ _)]
  rw [hpacket, seq_field_header, ts_field_header, hseq, h.2]
  constructor
  · omega
  · show _ = is.length % 4473925 * 960
    omega

/-- C1 (as amended): for every encryption mode, parsing a packet built from
payload `data` (splitting the 12-byte header, applying the same mode's open
operation, then extension-header stripping) recovers exactly `data` —
provided extension-header stripping leaves `data` unchanged
(`strip_header data = some data`), i.e. `data` is nonempty and does not make
`_strip_header` either raise an `IndexError` or strip a prefix that merely
looks like an RTP extension.  `hrand` records that the suffix mode's random
nonce is `nacl.secret.SecretBox.NONCE_SIZE = 24` bytes long. -/
theorem build_parse_roundtrip (box : SecretBox) (mode : Mode)
    (rand : List Nat) (ssrc : Nat) (st : VCState) (data : List Nat)
    (hrand : rand.length = 24) (hstrip : strip_header data = some data) :
    parse_inbound_packet box mode
      (get_voice_packet box mode rand ssrc st data).1 = some data := by
  have hlen := rtp_header_length st.sequence st.timestamp ssrc
  cases mode with
  | plain =>
    simp only [get_voice_packet, parse_inbound_packet,
      encrypt_xsalsa20_poly1305, decrypt_xsalsa20_poly1305]
    rw [List.take_left' hlen, List.drop_left' hlen, box.decrypt_encrypt,
      Option.some_bind, hstrip]
  | suffix =>
    simp only [get_voice_packet, parse_inbound_packet,
      encrypt_xsalsa20_poly1305_suffix, decrypt_xsalsa20_poly1305_suffix]
    rw [List.append_assoc, List.drop_left' hlen]
    have hdlen : (box.encrypt rand data ++ rand).length - 24
        = (box.encrypt rand data).length := by
      rw [List.length_append, hrand]
      omega
    rw [hdlen, List.drop_left, List.take_left, box.decrypt_encrypt,
      Option.some_bind, hstrip]
  | lite =>
    simp only [get_voice_packet, parse_inbound_packet,
      encrypt_xsalsa20_poly1305_lite, decrypt_xsalsa20_poly1305_lite]
    rw [List.append_assoc, List.drop_left' hlen]
    have hdlen : (box.encrypt (pack32 st.lite_nonce ++ List.replicate 20 0)
          data ++ pack32 st.lite_nonce).length - 4
        = (box.encrypt (pack32 st.lite_nonce ++ List.replicate 20 0)
          data).length := by
      rw [List.length_append, pack32_length]
      omega
    rw [hdlen, List.drop_left, List.take_left, box.decrypt_encrypt,
      Option.some_bind, hstrip]

/-- Witness for C1: a concrete three-byte payload round-trips through the
suffix mode under the reference box. -/
theorem build_parse_roundtrip_witness :
    parse_inbound_packet xorBox Mode.suffix
      (get_voice_packet xorBox Mode.suffix (List.replicate 24 7) 5 ⟨0, 0, 0⟩
        [1, 2, 3]).1 = some [1, 2, 3] :=
  build_parse_roundtrip xorBox Mode.suffix (List.replicate 24 7) 5 ⟨0, 0, 0⟩
    [1, 2, 3] (by decide) (by decide)

/-- C1 counterexample: the claim as stated includes payloads of length 0,
but a zero-length payload does not round-trip — after decryption
`_strip_header` evaluates `data[0]` on an empty byte string and raises
`IndexError` (modelled `none`), so parsing fails instead of returning the
empty payload. -/
theorem roundtrip_fails_on_empty_payload :
    parse_inbound_packet xorBox Mode.plain
      (get_voice_packet xorBox Mode.plain [] 0 ⟨0, 0, 0⟩ []).1 = none := by
  decide

/-- C3 (as amended): immediately after `_set_ssrc(u, s)` — with `s` a fresh
stream id (not currently a key of the forward map) distinct from `u` —
`_flip_ssrc(u)` returns `s` and `_flip_ssrc(s)` returns `u`.  After a
subsequent `_set_ssrc(u, s2)`, `_flip_ssrc(u)` returns `s2`, but
`_flip_ssrc(s)` STILL resolves to `u`: the stale reverse entry `(s, u)` is
never pruned, so the old stream id keeps resolving to the identity. -/
theorem assign_lookup_behaviour (st : SsrcState) (u s s2 : Nat)
    (hss2 : s ≠ s2) (hsu : s ≠ u) (hfresh : st.idrcs s = none) :
    flip_ssrc (set_ssrc st u s) u = some s ∧
    flip_ssrc (set_ssrc st u s) s = some u ∧
    flip_ssrc (set_ssrc (set_ssrc st u s) u s2) u = some s2 ∧
    flip_ssrc (set_ssrc (set_ssrc st u s) u s2) s = some u := by
  refine ⟨?_, ?_, ?_, ?_⟩ <;>
    simp [flip_ssrc, set_ssrc, dinsert, hsu, hss2, hfresh]

/-- Witness for C3 from the freshly constructed empty maps. -/
theorem assign_lookup_behaviour_witness :
    flip_ssrc (set_ssrc ⟨dempty, dempty⟩ 1 2) 1 = some 2 ∧
    flip_ssrc (set_ssrc ⟨dempty, dempty⟩ 1 2) 2 = some 1 ∧
    flip_ssrc (set_ssrc (set_ssrc ⟨dempty, dempty⟩ 1 2) 1 3) 1 = some 3 ∧
    flip_ssrc (set_ssrc (set_ssrc ⟨dempty, dempty⟩ 1 2) 1 3) 2 = some 1 :=
  assign_lookup_behaviour ⟨dempty, dempty⟩ 1 2 3 (by decide) (by decide) rfl

/-- C3 counterexample: starting from empty maps, after `_set_ssrc(1, 2)` and
then `_set_ssrc(1, 3)`, the claim says looking up the old stream id 2 no
longer resolves to identity 1 — but `_flip_ssrc(2)` still returns 1 through
the stale reverse entry. -/
theorem stale_reverse_entry_still_resolves :
    flip_ssrc (set_ssrc (set_ssrc ⟨dempty, dempty⟩ 1 2) 1 3) 2 = some 1 := by
  rfl

/-- Invariant preservation behind C7: if every forward entry's stream id is
a key of the reverse map, `_set_ssrc` writes preserve that. -/
theorem apply_ssrc_ops_key_inv : ∀ (ops : List (Nat × Nat)) (st : SsrcState),
    (∀ u s, st.idrcs u = some s → ∃ v, st.ssids s = some v) →
    ∀ u s, (apply_ssrc_ops ops st).idrcs u = some s →
      ∃ v, (apply_ssrc_ops ops st).ssids s = some v
  | [], _, h => h
  | p :: ps, st, h => by
    apply apply_ssrc_ops_key_inv ps
    intro u s hu
    simp only [set_ssrc, dinsert] at hu ⊢
    by_cases hup : u = p.1
    · rw [if_pos hup] at hu
      obtain rfl : p.2 = s := by injection hu
      exact ⟨p.1, by rw [if_pos rfl]⟩
    · rw [if_neg hup] at hu
      obtain ⟨v, hv⟩ := h u s hu
      by_cases hsp : s = p.2
      · exact ⟨p.1, by rw [if_pos hsp]⟩
      · exact ⟨v, by rw [if_neg hsp]; exact hv⟩

/-- C7 (as amended): at every state reachable from the empty maps by any
sequence of `_set_ssrc` / `ssrc`-setter writes, each identity maps to at
most one stream id, and for every pair `(u, s)` in the forward map the
reverse map contains `s` as a key — but bound to the identity most recently
assigned `s`, which need not be `u` (the pair `(s, u)` itself is not
preserved when `s` is reassigned to another identity). -/
theorem ssrc_registry_invariant (ops : List (Nat × Nat)) :
    (∀ u s s', (apply_ssrc_ops ops ⟨dempty, dempty⟩).idrcs u = some s →
      (apply_ssrc_ops ops ⟨dempty, dempty⟩).idrcs u = some s' → s = s') ∧
    (∀ u s, (apply_ssrc_ops ops ⟨dempty, dempty⟩).idrcs u = some s →
      ∃ v, (apply_ssrc_ops ops ⟨dempty, dempty⟩).ssids s = some v) := by
  constructor
  · intro u s s' h1 h2
    rw [h1] at h2
    injection h2
  · exact apply_ssrc_ops_key_inv ops ⟨dempty, dempty⟩
      (fun u s h => by exact absurd h (by simp [dempty]))

/-- Witness for C7 on a concrete two-write sequence. -/
theorem ssrc_registry_invariant_witness :
    ((apply_ssrc_ops [(1, 5), (2, 5)] ⟨dempty, dempty⟩).ssids 5).isSome
      = true :=
  Option.isSome_iff_exists.mpr
    ((ssrc_registry_invariant [(1, 5), (2, 5)]).2 1 5 rfl)

/-- C7 counterexample: reassigning stream id 5 from identity 1 to identity 2
leaves the pair `(1, 5)` in the forward map while the reverse map now binds
`5` to `2` — the claimed pair `(5, 1)` is gone. -/
theorem reverse_pair_overwritten :
    (apply_ssrc_ops [(1, 5), (2, 5)] ⟨dempty, dempty⟩).idrcs 1 = some 5 ∧
    (apply_ssrc_ops [(1, 5), (2, 5)] ⟨dempty, dempty⟩).ssids 5 = some 2 ∧
    (apply_ssrc_ops [(1, 5), (2, 5)] ⟨dempty, dempty⟩).ssids 5 ≠ some 1 := by
  exact ⟨rfl, rfl, by decide⟩

/-- A concrete pre-call session state used to evaluate the
`on_voice_server_update` theorems: an old `(token, endpoint)` pair from a
previous negotiation, handshake in progress, condition not yet complete. -/
def sampleServerState : ServerUpdateState where
  token := some [Char.ofNat 97]
  server_id := some 9
  endpoint := some [Char.ofNat 104]
  endpoint_ip := some [Char.ofNat 105]
  socket_fresh := false
  handshaking := true
  voice_server_complete := false
  ws_closed_4000 := false

/-- A concrete `VOICE_SERVER_UPDATE` payload carrying a fresh token but no
endpoint — the shape delivered while the platform is still provisioning a
voice server. -/
def sampleNoEndpoint : ServerUpdatePayload where
  token := some [Char.ofNat 116]
  guild_id := some 9
  channel_id := none
  endpoint := none

/-- C4 (as amended): when `on_voice_server_update` receives a payload with
`endpoint` or `token` absent (and the server condition is not already set),
it completes no condition, opens no socket, closes no websocket, and leaves
`endpoint` unchanged — but `token` has ALREADY been overwritten with the
payload's token value before the validation check, so the `(token,
endpoint)` pair is not replaced atomically and a half-updated pair is
observable. -/
theorem missing_field_stalls (st : ServerUpdateState)
    (data : ServerUpdatePayload)
    (hmiss : data.endpoint = none ∨ data.token = none)
    (hnc : st.voice_server_complete = false) :
    (on_voice_server_update st data).voice_server_complete = false ∧
    (on_voice_server_update st data).endpoint = st.endpoint ∧
    (on_voice_server_update st data).token = data.token ∧
    (on_voice_server_update st data).socket_fresh = st.socket_fresh ∧
    (on_voice_server_update st data).ws_closed_4000 = st.ws_closed_4000 := by
  rw [on_voice_server_update, if_neg (by rw [hnc]; exact Bool.false_ne_true)]
  rcases hmiss with h | h <;>
    · rw [h]
      cases data.endpoint <;> cases data.token <;>
        exact ⟨hnc, rfl, rfl, rfl, rfl⟩

/-- Witness for C4 on the concrete stalled payload. -/
theorem missing_field_stalls_witness :
    (on_voice_server_update sampleServerState
        sampleNoEndpoint).voice_server_complete = false ∧
    (on_voice_server_update sampleServerState sampleNoEndpoint).endpoint
      = sampleServerState.endpoint ∧
    (on_voice_server_update sampleServerState sampleNoEndpoint).token
      = sampleNoEndpoint.token ∧
    (on_voice_server_update sampleServerState sampleNoEndpoint).socket_fresh
      = sampleServerState.socket_fresh ∧
    (on_voice_server_update sampleServerState
        sampleNoEndpoint).ws_closed_4000
      = sampleServerState.ws_closed_4000 :=
  missing_field_stalls sampleServerState sampleNoEndpoint (Or.inl rfl) rfl

/-- C4 counterexample: a payload whose `endpoint` is absent but whose
`token` is present does NOT leave the `(token, endpoint)` pair unchanged —
`self.token = data.get('token')` runs before the validation check, so the
stored token flips from the old value to the new one while the endpoint
stays stale. -/
theorem token_overwritten_despite_missing_endpoint :
    (on_voice_server_update sampleServerState sampleNoEndpoint).token
      ≠ sampleServerState.token := by
  decide

/-- C6 (confirmed): `on_voice_state_update` delivering a null `channel_id`
while the client is not handshaking (or is potentially reconnecting)
triggers a disconnect; delivering any payload while actively handshaking and
not potentially reconnecting completes the session-assignment condition and
leaves the channel field unchanged. -/
theorem state_update_dispatch (st : StateUpdateState) (sid : List Char)
    (cid : Option Nat) (get_channel : Nat → Option Nat) :
    ((st.handshaking = false ∨ st.potentially_reconnecting = true) →
      cid = none →
      (on_voice_state_update st sid cid get_channel).2 = true) ∧
    (st.handshaking = true → st.potentially_reconnecting = false →
      ((on_voice_state_update st sid cid get_channel).1.voice_state_complete
          = true ∧
        (on_voice_state_update st sid cid get_channel).1.channel
          = st.channel ∧
        (on_voice_state_update st sid cid get_channel).2 = false)) := by
  constructor
  · intro hbranch hcid
    subst hcid
    simp only [on_voice_state_update.eq_def]
    rw [if_pos hbranch]
  · intro hh hr
    simp only [on_voice_state_update.eq_def]
    rw [if_neg (by rw [hh, hr]; simp)]
    exact ⟨rfl, rfl, rfl⟩

/-- Witness for C6: both branches at concrete states. -/
theorem state_update_dispatch_witness :
    (on_voice_state_update
        ⟨[], some 4, false, false, false⟩ [] none (fun _ => none)).2
      = true ∧
    ((on_voice_state_update
        ⟨[], some 4, true, false, false⟩ [] none
        (fun _ => none)).1.voice_state_complete = true ∧
      (on_voice_state_update
        ⟨[], some 4, true, false, false⟩ [] none
        (fun _ => none)).1.channel = some 4 ∧
      (on_voice_state_update
        ⟨[], some 4, true, false, false⟩ [] none (fun _ => none)).2
        = false) :=
  ⟨(state_update_dispatch ⟨[], some 4, false, false, false⟩ [] none
      (fun _ => none)).1 (Or.inl rfl) rfl,
   (state_update_dispatch ⟨[], some 4, true, false, false⟩ [] none
      (fun _ => none)).2 rfl rfl⟩

/-- C8 (confirmed): in the `poll_voice_ws` supervisory loop, a connection
closure with close code 1000 never leads to a `potential_resume` or
`potential_reconnect` attempt: the iteration runs the disconnect teardown,
raises nothing, and exits the loop — for every value of the `reconnect`
flag and of the resume/reconnect outcomes. -/
theorem close_1000_only_teardown (reconnect resume_ok reconnect_ok : Bool) :
    (poll_step (.connection_closed 1000) reconnect resume_ok
        reconnect_ok).attempted_resume = false ∧
    (poll_step (.connection_closed 1000) reconnect resume_ok
        reconnect_ok).attempted_reconnect = false ∧
    (poll_step (.connection_closed 1000) reconnect resume_ok
        reconnect_ok).disconnected = true ∧
    (poll_step (.connection_closed 1000) reconnect resume_ok
        reconnect_ok).raised = false ∧
    (poll_step (.connection_closed 1000) reconnect resume_ok
        reconnect_ok).exits = true :=
  ⟨rfl, rfl, rfl, rfl, rfl⟩

end Voice
